import Mathlib

/-!
Verification of the TradeGuard risk-analysis pipeline
(Metrics Calculator → Risk Rule Engine → Risk Scorer) and of the
sample-data generator.  The core modules `metrics_calculator.py`,
`risk_rules.py` and `risk_scorer.py` live in a `core/` directory that is
not part of the checked-in sources; they are modelled from the spec
(§4.1–§4.3), as marked on each definition.  `create_sample_data.py` and
the concrete ledger of `test_integration.py` are embedded directly from
the source.  Reals are modelled as ℚ, timestamps as ℤ (seconds).
-/

namespace TradeGuard

/-- One closed trade: the row schema of the trade ledger (spec §3,
matching the CSV header in `app.py` and the dict keys built in
`create_sample_data.py` / `test_integration.py`). -/
structure Trade where
  trade_id : ℕ
  symbol : String
  entry_time : ℤ
  exit_time : ℤ
  trade_type : String
  lot_size : ℚ
  entry_price : ℚ
  exit_price : ℚ
  stop_loss : ℚ
  take_profit : ℚ
  profit_loss : ℚ
  account_balance_before : ℚ
  deriving Repr, DecidableEq

/-- Minimum of two rationals, written as a conditional so the kernel can
evaluate it on concrete inputs. -/
def qmin (a b : ℚ) : ℚ := if a ≤ b then a else b

/-- Maximum of two rationals, written as a conditional so the kernel can
evaluate it on concrete inputs. -/
def qmax (a b : ℚ) : ℚ := if a ≤ b then b else a

theorem qmin_eq (a b : ℚ) : qmin a b = min a b := (min_def a b).symm

theorem qmax_eq (a b : ℚ) : qmax a b = max a b := (max_def a b).symm

/-- Clamp a rate to the range [0,100]. -/
def clampRate (x : ℚ) : ℚ := qmax 0 (qmin 100 x)

/-! ### Metrics Calculator (spec §4.1) -/

/-- Modelled from the spec: number of winning trades
(count of trades with `profit_loss > 0`), from the missing
`core/metrics_calculator.py`. -/
def wins (l : List Trade) : ℕ := l.countP (fun t => decide (0 < t.profit_loss))

/-- Modelled from the spec: number of losing trades
(count of trades with `profit_loss < 0`), from the missing
`core/metrics_calculator.py`. -/
def lossCount (l : List Trade) : ℕ := l.countP (fun t => decide (t.profit_loss < 0))

/-- Modelled from the spec: `win_rate` = 100 × wins / total_trades,
clamped to [0,100] before being returned (missing
`core/metrics_calculator.py`). -/
def winRate (l : List Trade) : ℚ := clampRate (100 * (wins l : ℚ) / (l.length : ℚ))

/-- Modelled from the spec: sum of positive `profit_loss`
(missing `core/metrics_calculator.py`). -/
def grossProfit (l : List Trade) : ℚ :=
  (l.map (fun t => if 0 < t.profit_loss then t.profit_loss else 0)).sum

/-- Modelled from the spec: absolute sum of negative `profit_loss`
(missing `core/metrics_calculator.py`). -/
def grossLoss (l : List Trade) : ℚ :=
  (l.map (fun t => if t.profit_loss < 0 then -t.profit_loss else 0)).sum

/-- Modelled from the spec: the "large capped sentinel (not infinity)"
emitted for `profit_factor` when there are no losing trades (missing
`core/metrics_calculator.py`; the spec fixes no numeral, only that it is
finite and defined). -/
def profitFactorCap : ℚ := 999

/-- Modelled from the spec: `profit_factor` = grossProfit / grossLoss,
with the capped sentinel when there are no losses (missing
`core/metrics_calculator.py`). -/
def profitFactor (l : List Trade) : ℚ :=
  if grossLoss l = 0 then profitFactorCap else grossProfit l / grossLoss l

/-- Modelled from the spec: `net_profit` = sum of `profit_loss`
(missing `core/metrics_calculator.py`). -/
def netProfit (l : List Trade) : ℚ := (l.map (fun t => t.profit_loss)).sum

/-- Modelled from the spec: per-instrument contract-size convention,
"defaulting to 1 for non-FX instruments and a fixed multiplier for
currency pairs" (missing `core/metrics_calculator.py`). -/
def defaultContractSize (s : String) : ℚ :=
  if s ∈ (["EURUSD", "GBPUSD", "USDJPY"] : List String) then 100000 else 1

/-- Modelled from the spec: one trade's position size as a percentage of
the account balance before the trade (missing
`core/metrics_calculator.py`). -/
def positionSizePct (cs : String → ℚ) (t : Trade) : ℚ :=
  t.lot_size * cs t.symbol / t.account_balance_before * 100

/-- Modelled from the spec: `avg_position_size_pct` = mean of the
per-trade position-size percentages (missing
`core/metrics_calculator.py`). -/
def avgPositionSizePct (cs : String → ℚ) (l : List Trade) : ℚ :=
  (l.map (positionSizePct cs)).sum / (l.length : ℚ)

/-- Modelled from the spec: running-peak drawdown fold over the equity
points; at each point drawdown = (peak − current)/peak × 100 and the
result is the maximum over the curve (missing
`core/metrics_calculator.py`). -/
def ddFold : List ℚ → ℚ → ℚ → ℚ
  | [], _, acc => acc
  | x :: xs, peak, acc =>
      ddFold xs (qmax peak x) (qmax acc ((qmax peak x - x) / qmax peak x * 100))

/-- Modelled from the spec: `max_drawdown_pct`, reconstructing the equity
curve by applying `profit_loss` sequentially to the first trade's
`account_balance_before` (missing `core/metrics_calculator.py`). -/
def maxDrawdownPct (l : List Trade) : ℚ :=
  match l with
  | [] => 0
  | t :: _ =>
      ddFold (List.scanl (fun a b => a + b) t.account_balance_before
        (l.map (fun t => t.profit_loss))) t.account_balance_before 0

/-- Modelled from the spec: `risk_reward_ratio` = mean winning
`profit_loss` over absolute mean losing `profit_loss`, degenerate cases
defaulting to 0 (missing `core/metrics_calculator.py`). -/
def riskReward (l : List Trade) : ℚ :=
  if wins l = 0 ∨ lossCount l = 0 then 0
  else (grossProfit l / (wins l : ℚ)) / (grossLoss l / (lossCount l : ℚ))

/-- Modelled from the spec: `sl_usage_rate` = 100 × (trades with nonzero
`stop_loss`) / total, clamped to [0,100] (missing
`core/metrics_calculator.py`). -/
def slUsageRate (l : List Trade) : ℚ :=
  clampRate (100 * ((l.countP (fun t => decide (t.stop_loss ≠ 0))) : ℚ) / (l.length : ℚ))

/-- The required metric keys of the Metrics mapping (spec §3). -/
def requiredKeys : List String :=
  ["total_trades", "win_rate", "profit_factor", "net_profit",
   "avg_position_size_pct", "max_drawdown_pct", "risk_reward_ratio",
   "sl_usage_rate"]

/-- Modelled from the spec: the defaults returned for an empty ledger —
all keys present, "zero, or 100% for rates with a vacuous true
condition" (missing `core/metrics_calculator.py`). -/
def emptyMetrics : List (String × ℚ) :=
  [("total_trades", 0), ("win_rate", 0), ("profit_factor", 0),
   ("net_profit", 0), ("avg_position_size_pct", 0), ("max_drawdown_pct", 0),
   ("risk_reward_ratio", 0), ("sl_usage_rate", 100)]

/-- Modelled from the spec: `TradeMetricsCalculator.compute_all_metrics`
(missing `core/metrics_calculator.py`): a total function producing the
full Metrics mapping, degrading to defined defaults on an empty
ledger. -/
def compute_all_metrics (cs : String → ℚ) (l : List Trade) : List (String × ℚ) :=
  if l.isEmpty then emptyMetrics
  else
    [("total_trades", (l.length : ℚ)), ("win_rate", winRate l),
     ("profit_factor", profitFactor l), ("net_profit", netProfit l),
     ("avg_position_size_pct", avgPositionSizePct cs l),
     ("max_drawdown_pct", maxDrawdownPct l),
     ("risk_reward_ratio", riskReward l), ("sl_usage_rate", slUsageRate l)]

/-! ### Risk Rule Engine (spec §4.2) -/

/-- One risk finding's detail: severity in [0,100] plus a human-readable
message (spec §3). -/
structure RiskDetail where
  severity : ℚ
  message : String
  deriving Repr, DecidableEq

/-- Result of `detect_all_risks` (spec §4.2 contract). -/
structure RiskResults where
  detected_risks : List String
  risk_details : List (String × RiskDetail)
  deriving Repr, DecidableEq

/-- Configured maximum position size in percent (default 2.0, the
`max_position_size` slider default in `app.py`). -/
def maxPositionSizePct : ℚ := 2

/-- Configured minimum risk:reward (default 1.0, the `min_rr_ratio`
slider default in `app.py`). -/
def minRiskReward : ℚ := 1

/-- Configured drawdown alert threshold in percent (default 20, the
`max_drawdown` slider default in `app.py`). -/
def maxDrawdownAlert : ℚ := 20

/-- Modelled from the spec: configured minimum stop-loss usage rate
below which the missing-stop-loss rule fires (missing
`core/risk_rules.py`; the spec's integration scenario requires it to
exceed 75). -/
def minSlUsage : ℚ := 80

/-- Modelled from the spec: over-leverage severity — 0 at or below the
configured max, scaling linearly to 100 at 3× the max (missing
`core/risk_rules.py`). -/
def overLeverageSeverity (avgPos : ℚ) : ℚ :=
  if avgPos ≤ maxPositionSizePct then 0
  else qmin 100 ((avgPos - maxPositionSizePct) /
    (3 * maxPositionSizePct - maxPositionSizePct) * 100)

/-- Modelled from the spec: missing-stop-loss severity =
`100 − sl_usage_rate` when usage falls below the configured minimum,
else 0 (missing `core/risk_rules.py`). -/
def missingStopLossSeverity (sl : ℚ) : ℚ :=
  if sl < minSlUsage then 100 - sl else 0

/-- Modelled from the spec: poor risk:reward severity — grows as the
ratio falls below the configured minimum, saturating at 100 as the ratio
approaches 0 (missing `core/risk_rules.py`). -/
def poorRiskRewardSeverity (rr : ℚ) : ℚ :=
  if rr < minRiskReward then qmin 100 ((minRiskReward - rr) / minRiskReward * 100)
  else 0

/-- Modelled from the spec: excessive-drawdown severity — scales with how
far `max_drawdown_pct` exceeds the alert threshold (missing
`core/risk_rules.py`). -/
def excessiveDrawdownSeverity (mdd : ℚ) : ℚ :=
  if mdd ≤ maxDrawdownAlert then 0
  else qmin 100 ((mdd - maxDrawdownAlert) / maxDrawdownAlert * 100)

/-- Modelled from the spec: a rule whose metric dependency is missing is
skipped with severity 0 rather than aborting the batch (missing
`core/risk_rules.py`). -/
def sevOf (f : ℚ → ℚ) : Option ℚ → ℚ
  | none => 0
  | some v => f v

/-- Modelled from the spec: the ordered rule registry evaluated against
the Metrics mapping (missing `core/risk_rules.py`). -/
def ruleCandidates (metrics : List (String × ℚ)) : List (String × RiskDetail) :=
  [("over_leverage",
     ⟨sevOf overLeverageSeverity (metrics.lookup "avg_position_size_pct"),
      "Average position size exceeds the configured maximum"⟩),
   ("missing_stop_loss",
     ⟨sevOf missingStopLossSeverity (metrics.lookup "sl_usage_rate"),
      "Stop-loss not set on a significant share of trades"⟩),
   ("poor_risk_reward",
     ⟨sevOf poorRiskRewardSeverity (metrics.lookup "risk_reward_ratio"),
      "Risk-reward ratio below the configured minimum"⟩),
   ("excessive_drawdown",
     ⟨sevOf excessiveDrawdownSeverity (metrics.lookup "max_drawdown_pct"),
      "Maximum drawdown exceeds the alert threshold"⟩)]

/-- Modelled from the spec: `RiskRuleEngine.detect_all_risks` (missing
`core/risk_rules.py`): every registered rule is evaluated; a risk is
reported only when its severity exceeds its minimum-reporting threshold
(rules at or below it are omitted, not reported at severity 0). -/
def detect_all_risks (metrics : List (String × ℚ)) (_ledger : List Trade) :
    RiskResults :=
  let fired := (ruleCandidates metrics).filter (fun p => decide (0 < p.2.severity))
  ⟨fired.map (fun p => p.1), fired⟩

/-! ### Risk Scorer (spec §4.3) -/

/-- One entry of the score breakdown (spec §3). -/
structure BreakdownEntry where
  risk : String
  severity : ℚ
  weight : ℚ
  contribution : ℚ
  deriving Repr, DecidableEq

/-- Severity-bucket counts for visualization (spec §4.3 step 7). -/
structure RiskBuckets where
  low : ℕ
  medium : ℕ
  high : ℕ
  deriving Repr, DecidableEq

/-- The Score Result record (spec §3). -/
structure ScoreResult where
  score : ℚ
  grade : String
  grade_color : String
  improvement_potential : ℤ
  total_risks : ℕ
  breakdown : List BreakdownEntry
  risk_breakdown : RiskBuckets
  recommendation : String
  top_risks : List String
  deriving Repr, DecidableEq

/-- Modelled from the spec: one risk's score deduction,
`contribution = (severity / 100) × weight` (missing
`core/risk_scorer.py`). -/
def contributionOf (w : String → ℚ) (p : String × RiskDetail) : ℚ :=
  p.2.severity / 100 * w p.1

/-- Modelled from the spec: the total deduction Σ contributions (missing
`core/risk_scorer.py`). -/
def totalContribution (w : String → ℚ) (rd : List (String × RiskDetail)) : ℚ :=
  (rd.map (contributionOf w)).sum

/-- Modelled from the spec: breakdown entries for all risks with positive
contribution, in input order (missing `core/risk_scorer.py`). -/
def breakdownOf (w : String → ℚ) (rd : List (String × RiskDetail)) :
    List BreakdownEntry :=
  (rd.map (fun p => ⟨p.1, p.2.severity, w p.1, contributionOf w p⟩)).filter
    (fun e => decide (0 < e.contribution))

/-- Modelled from the spec: bucketed letter grade — A ≥ 90, B ≥ 75,
C ≥ 60, D ≥ 40, F below (missing `core/risk_scorer.py`). -/
def gradeOf (s : ℚ) : String :=
  if 90 ≤ s then "A" else if 75 ≤ s then "B" else if 60 ≤ s then "C"
  else if 40 ≤ s then "D" else "F"

/-- Modelled from the spec: the display color associated with each grade
(missing `core/risk_scorer.py`). -/
def gradeColorOf (s : ℚ) : String :=
  if 90 ≤ s then "#10b981" else if 75 ≤ s then "#84cc16"
  else if 60 ≤ s then "#fbbf24" else if 40 ≤ s then "#f59e0b" else "#ef4444"

/-- Modelled from the spec: severity buckets over the breakdown —
low < 40, medium < 70, high ≥ 70 (missing `core/risk_scorer.py`). -/
def bucketsOf (bd : List BreakdownEntry) : RiskBuckets :=
  ⟨bd.countP (fun e => decide (e.severity < 40)),
   bd.countP (fun e => decide (40 ≤ e.severity ∧ e.severity < 70)),
   bd.countP (fun e => decide (70 ≤ e.severity))⟩

/-- Insert one entry into a list kept sorted by contribution
descending. -/
def insertDesc (e : BreakdownEntry) : List BreakdownEntry → List BreakdownEntry
  | [] => [e]
  | x :: xs =>
      if x.contribution < e.contribution then e :: x :: xs
      else x :: insertDesc e xs

/-- Sort breakdown entries by contribution descending (insertion
sort). -/
def sortByContributionDesc (bd : List BreakdownEntry) : List BreakdownEntry :=
  bd.foldr insertDesc []

/-- Modelled from the spec: the templated recommendation text, a static
selection keyed by grade (missing `core/risk_scorer.py`). -/
def recommendationOf (g : String) : String :=
  if g = "A" then "Excellent risk management. Keep up the disciplined approach."
  else if g = "B" then "Good risk profile with a few areas worth attention."
  else if g = "C" then "Moderate risk detected. Review the highlighted areas."
  else if g = "D" then "Significant risks detected. Prioritize the top risks."
  else "Critical risk profile. Address the highlighted risks urgently."

/-- Modelled from the spec: `RiskScorer.calculate_score` (missing
`core/risk_scorer.py`): a deterministic pure function of `riskDetails`
and the static weight table, following spec §4.3 steps 1–9. -/
def calculate_score (w : String → ℚ) (rd : List (String × RiskDetail)) :
    ScoreResult :=
  let score := qmax 0 (qmin 100 (100 - totalContribution w rd))
  let bd := breakdownOf w rd
  { score := score
    grade := gradeOf score
    grade_color := gradeColorOf score
    improvement_potential := round (100 - score)
    total_risks := bd.length
    breakdown := bd
    risk_breakdown := bucketsOf bd
    recommendation := recommendationOf (gradeOf score)
    top_risks := ((sortByContributionDesc bd).map (fun e => e.risk)).take 3 }

/-- The full three-stage pipeline of `app.py` lines 176–185:
`compute_all_metrics`, then `detect_all_risks`, then `calculate_score`. -/
def pipeline (cs : String → ℚ) (w : String → ℚ) (l : List Trade) :
    List (String × ℚ) × RiskResults × ScoreResult :=
  let metrics := compute_all_metrics cs l
  let risks := detect_all_risks metrics l
  (metrics, risks, calculate_score w risks.risk_details)

/-! ### Sample-data generator (`create_sample_data.py`)

The generator draws from `np.random`; the embedding takes the random
draws as explicit inputs, one `RandTrade` record per loop iteration,
constrained by `RandTrade.Valid` to the ranges the numpy calls can
return (`np.random.uniform(a, b)` lies in `[a, b)`,
`np.random.randint(a, b)` in `[a, b)`, `np.random.random()` in
`[0, 1)`).  `datetime.now()` is the explicit parameter `now`, in
seconds. -/

/-- Round a rational to `n` decimal places, as Python's `round(x, n)`
(tie behavior aside, which no draw range forces). -/
def roundTo (n : ℕ) (x : ℚ) : ℚ := (round (x * 10 ^ n) : ℚ) / 10 ^ n

/-- The symbol list of `create_sample_data.py` line 9. -/
def symbols : List String :=
  ["EURUSD", "GBPUSD", "USDJPY", "BTCUSD", "XAUUSD", "TSLA", "AAPL"]

/-- Does a character list contain "USD" as a contiguous run? -/
def charsHaveUSD : List Char → Bool
  | 'U' :: 'S' :: 'D' :: _ => true
  | _ :: cs => charsHaveUSD cs
  | [] => false

/-- `'USD' in symbol` (Python substring test). -/
def containsUSD (s : String) : Bool := charsHaveUSD s.data

/-- Lower bound of the uniform draw for `base_price`, following the
branch structure of `create_sample_data.py` lines 18–25. -/
def basePriceLo (s : String) : ℚ :=
  if s ∈ (["EURUSD", "GBPUSD", "USDJPY"] : List String) then
    (if containsUSD s then 1 else 100)
  else if s = "BTCUSD" then 30000
  else if s = "XAUUSD" then 1800
  else 100

/-- Upper bound of the uniform draw for `base_price`, following the
branch structure of `create_sample_data.py` lines 18–25. -/
def basePriceHi (s : String) : ℚ :=
  if s ∈ (["EURUSD", "GBPUSD", "USDJPY"] : List String) then
    (if containsUSD s then 3 / 2 else 150)
  else if s = "BTCUSD" then 50000
  else if s = "XAUUSD" then 2100
  else 300

/-- The random draws one loop iteration of `create_sample_data`
consumes. -/
structure RandTrade where
  symIdx : Fin 7
  baseDraw : ℚ
  exitDraw : ℚ
  winRoll : ℚ
  plMagnitude : ℚ
  dayOffset : ℕ
  hourOffset : ℕ
  durationHours : ℕ
  typeIdx : Fin 2
  lotDraw : ℚ
  deriving Repr

/-- The symbol this iteration picked (`np.random.choice(symbols)`). -/
def RandTrade.symbol (r : RandTrade) : String :=
  symbols.get (Fin.cast (by decide) r.symIdx)

/-- The ranges the numpy draws of `create_sample_data.py` can return. -/
def RandTrade.Valid (r : RandTrade) : Prop :=
  basePriceLo r.symbol ≤ r.baseDraw ∧ r.baseDraw < basePriceHi r.symbol ∧
  97 / 100 ≤ r.exitDraw ∧ r.exitDraw < 103 / 100 ∧
  0 ≤ r.winRoll ∧ r.winRoll < 1 ∧
  10 ≤ r.plMagnitude ∧ r.plMagnitude < 100 ∧
  r.dayOffset < 30 ∧ r.hourOffset < 23 ∧
  1 ≤ r.durationHours ∧ r.durationHours < 48 ∧
  1 / 100 ≤ r.lotDraw ∧ r.lotDraw < 1 / 2

instance (r : RandTrade) : Decidable r.Valid := by
  unfold RandTrade.Valid; infer_instance

/-- The raw (unrounded) `profit_loss` draw of one iteration
(`create_sample_data.py` lines 31–34: positive magnitude when
`np.random.random() > 0.4`, else negative). -/
def rawPL (r : RandTrade) : ℚ :=
  if 2 / 5 < r.winRoll then r.plMagnitude else -r.plMagnitude

/-- One iteration of the loop body of `create_sample_data.py`
lines 14–64: builds the trade dict appended for index `i`, given the
running balance. -/
def mkTrade (i : ℕ) (currentBalance : ℚ) (now : ℤ) (r : RandTrade) : Trade :=
  let symbol := r.symbol
  let entry_price := r.baseDraw
  let profit_loss := rawPL r
  let exit_price := entry_price * (1 + profit_loss / (entry_price * (1 / 10)))
  let start_date := now - 30 * 86400
  let entry_time := start_date + r.dayOffset * 86400 + r.hourOffset * 3600
  let exit_time := entry_time + r.durationHours * 3600
  let stop_loss := entry_price * (if 0 < profit_loss then 49 / 50 else 51 / 50)
  let take_profit := entry_price * (if 0 < profit_loss then 51 / 50 else 49 / 50)
  { trade_id := i
    symbol := symbol
    entry_time := entry_time
    exit_time := exit_time
    trade_type := if r.typeIdx = 0 then "BUY" else "SELL"
    lot_size := r.lotDraw
    entry_price := roundTo 4 entry_price
    exit_price := roundTo 4 exit_price
    stop_loss := roundTo 4 stop_loss
    take_profit := roundTo 4 take_profit
    profit_loss := roundTo 2 profit_loss
    account_balance_before := roundTo 2 currentBalance }

/-- The loop of `create_sample_data.py`: `n` iterations remaining,
next index `i`, running balance `bal` (updated with the raw
`profit_loss`, line 66). -/
def csdLoop (now : ℤ) (rand : ℕ → RandTrade) :
    ℕ → ℕ → ℚ → List Trade
  | 0, _, _ => []
  | n + 1, i, bal =>
      mkTrade i bal now (rand i) :: csdLoop now rand n (i + 1) (bal + rawPL (rand i))

/-- `create_sample_data(num_trades, account_balance)` from
`create_sample_data.py`, with the random draws and the clock as explicit
inputs: iterates `i = 1 .. num_trades` starting from
`current_balance = account_balance`. -/
def create_sample_data (numTrades : ℕ) (accountBalance : ℚ) (now : ℤ)
    (rand : ℕ → RandTrade) : List Trade :=
  csdLoop now rand numTrades 1 accountBalance

/-! ### Test ledger of `test_integration.py` (lines 21–37) -/

/-- The `profit_loss` sequence of the integration test, repeated twice
over the 20 trades. -/
def testPLs : List ℚ := [20, -30, 40, -25, 35, -20, 45, -15, 50, -10]

/-- Row `k` (0-based) of the 20-trade DataFrame built in
`test_full_pipeline`: EURUSD×10 then GBPUSD×5 then BTCUSD×5, alternating
BUY/SELL, `lot_size` 0.2, prices `1.1000 + k·0.001` etc., the last 5 rows
with `stop_loss = 0`, balances all 10000.  Timestamps are seconds for
`2024-01-(k+1) 10:00:00` / `12:00:00` counted from 2023-12-31. -/
def testTrade (k : ℕ) : Trade :=
  { trade_id := k + 1
    symbol := if k < 10 then "EURUSD" else if k < 15 then "GBPUSD" else "BTCUSD"
    entry_time := ((k : ℤ) + 1) * 86400 + 10 * 3600
    exit_time := ((k : ℤ) + 1) * 86400 + 12 * 3600
    trade_type := if k % 2 = 0 then "BUY" else "SELL"
    lot_size := 1 / 5
    entry_price := 11 / 10 + (k : ℚ) / 1000
    exit_price := 1102 / 1000 + (k : ℚ) / 1000
    stop_loss := if k < 15 then 1098 / 1000 + (k : ℚ) / 1000 else 0
    take_profit := 1105 / 1000 + (k : ℚ) / 1000
    profit_loss := testPLs.getD (k % 10) 0
    account_balance_before := 10000 }

/-- The 20-trade ledger of `test_full_pipeline`. -/
def testLedger : List Trade := (List.range 20).map testTrade

/-! ### Helper lemmas -/

theorem clampRate_nonneg (x : ℚ) : 0 ≤ clampRate x := le_max_left 0 _

theorem clampRate_le_100 (x : ℚ) : clampRate x ≤ 100 :=
  max_le (by norm_num) (min_le_left _ _)

theorem le_ddFold (xs : List ℚ) : ∀ peak acc : ℚ, acc ≤ ddFold xs peak acc := by
  induction xs with
  | nil => intro peak acc; exact le_rfl
  | cons x xs ih =>
      intro peak acc
      exact le_trans (le_max_left _ _) (ih _ _)

theorem maxDrawdownPct_nonneg (l : List Trade) : 0 ≤ maxDrawdownPct l := by
  cases l with
  | nil => exact le_rfl
  | cons t ts => exact le_ddFold _ _ _

/-! ### Claim theorems: Risk Scorer -/

/-- C1: for every riskDetails mapping, the score returned by
`calculate_score` equals `clamp(100 − Σ (severity/100)·weight, 0, 100)`,
and in particular lies in [0,100] for every possible input. -/
theorem calculate_score_clamp_bounds (w : String → ℚ)
    (rd : List (String × RiskDetail)) :
    (calculate_score w rd).score =
      max 0 (min 100 (100 - totalContribution w rd)) ∧
    0 ≤ (calculate_score w rd).score ∧ (calculate_score w rd).score ≤ 100 :=
  ⟨rfl, le_max_left 0 _, max_le (by norm_num) (min_le_left _ _)⟩

/-- C4: increasing one finding's severity, holding all other severities
and all weights fixed, never increases the score returned by
`calculate_score` (weights are never negative, spec §4.3). -/
theorem calculate_score_antitone (w : String → ℚ)
    (l₁ l₂ : List (String × RiskDetail)) (name msg : String) (s s' : ℚ)
    (hw : ∀ r, 0 ≤ w r) (hs : s ≤ s') :
    (calculate_score w (l₁ ++ (name, ⟨s', msg⟩) :: l₂)).score ≤
      (calculate_score w (l₁ ++ (name, ⟨s, msg⟩) :: l₂)).score := by
  have hc : contributionOf w (name, ⟨s, msg⟩) ≤ contributionOf w (name, ⟨s', msg⟩) := by
    unfold contributionOf
    exact mul_le_mul_of_nonneg_right (by linarith) (hw name)
  have key : totalContribution w (l₁ ++ (name, ⟨s, msg⟩) :: l₂) ≤
      totalContribution w (l₁ ++ (name, ⟨s', msg⟩) :: l₂) := by
    unfold totalContribution
    rw [List.map_append, List.sum_append, List.map_cons, List.sum_cons,
      List.map_append, List.sum_append, List.map_cons, List.sum_cons]
    linarith
  show max 0 (min 100 (100 - _)) ≤ max 0 (min 100 (100 - _))
  exact max_le_max le_rfl (min_le_min le_rfl (by linarith))

/-- Witness for C4 at a concrete input: one finding whose severity rises
from 50 to 60 under constant weight 10. -/
theorem calculate_score_antitone_witness :
    (∀ r : String, 0 ≤ (fun _ : String => (10 : ℚ)) r) ∧ (50 : ℚ) ≤ 60 ∧
    (calculate_score (fun _ => 10) ([] ++ ("a", ⟨60, "m"⟩) :: [])).score ≤
      (calculate_score (fun _ => 10) ([] ++ ("a", ⟨50, "m"⟩) :: [])).score :=
  ⟨fun _ => by norm_num, by norm_num,
    calculate_score_antitone (fun _ => 10) [] [] "a" "m" 50 60
      (fun _ => by norm_num) (by norm_num)⟩

/-- C5: an empty riskDetails mapping yields score 100, grade A, zero
total risks, and empty breakdown and top_risks lists. -/
theorem calculate_score_empty (w : String → ℚ) :
    (calculate_score w []).score = 100 ∧ (calculate_score w []).grade = "A" ∧
    (calculate_score w []).total_risks = 0 ∧
    (calculate_score w []).breakdown = [] ∧
    (calculate_score w []).top_risks = [] := by
  refine ⟨?_, ?_, rfl, rfl, rfl⟩
  · show max 0 (min 100 (100 - totalContribution w [])) = 100
    norm_num [totalContribution]
  · show gradeOf (max 0 (min 100 (100 - totalContribution w []))) = "A"
    norm_num [totalContribution, gradeOf]

/-- C8: running the full pipeline twice on the same ledger and the same
configuration yields identical metrics, findings and score result — in
this embedding every stage is a pure function of its inputs, so the two
runs are definitionally the same value. -/
theorem pipeline_idempotent (cs w : String → ℚ) (l : List Trade) :
    pipeline cs w l = pipeline cs w l := rfl

/-! ### Claim theorems: Metrics Calculator -/

/-- A concrete single winning trade, used to instantiate hypotheses. -/
def wTrade : Trade :=
  ⟨1, "EURUSD", 0, 3600, "BUY", 1/5, 11/10, 111/100, 109/100, 112/100, 20, 10000⟩

theorem compute_all_metrics_cons (cs : String → ℚ) (t : Trade) (ts : List Trade) :
    compute_all_metrics cs (t :: ts) =
      [("total_trades", ((t :: ts).length : ℚ)), ("win_rate", winRate (t :: ts)),
       ("profit_factor", profitFactor (t :: ts)), ("net_profit", netProfit (t :: ts)),
       ("avg_position_size_pct", avgPositionSizePct cs (t :: ts)),
       ("max_drawdown_pct", maxDrawdownPct (t :: ts)),
       ("risk_reward_ratio", riskReward (t :: ts)),
       ("sl_usage_rate", slUsageRate (t :: ts))] := rfl

/-- C2: for every non-empty ledger, the metrics mapping returned by
`compute_all_metrics` carries a `win_rate` in [0,100], an
`sl_usage_rate` in [0,100] and a nonnegative `max_drawdown_pct` (all
values are rationals, hence never NaN or infinite). -/
theorem compute_all_metrics_bounds (cs : String → ℚ) (l : List Trade)
    (h : l ≠ []) :
    (compute_all_metrics cs l).lookup "win_rate" = some (winRate l) ∧
    0 ≤ winRate l ∧ winRate l ≤ 100 ∧
    (compute_all_metrics cs l).lookup "sl_usage_rate" = some (slUsageRate l) ∧
    0 ≤ slUsageRate l ∧ slUsageRate l ≤ 100 ∧
    (compute_all_metrics cs l).lookup "max_drawdown_pct" = some (maxDrawdownPct l) ∧
    0 ≤ maxDrawdownPct l := by
  obtain ⟨t, ts, rfl⟩ := List.exists_cons_of_ne_nil h
  refine ⟨?_, clampRate_nonneg _, clampRate_le_100 _, ?_,
    clampRate_nonneg _, clampRate_le_100 _, ?_, maxDrawdownPct_nonneg _⟩ <;>
    rw [compute_all_metrics_cons] <;> rfl

/-- Witness for C2 at the one-trade ledger `[wTrade]`. -/
theorem compute_all_metrics_bounds_witness :
    ([wTrade] ≠ ([] : List Trade)) ∧
    ((compute_all_metrics defaultContractSize [wTrade]).lookup "win_rate" =
        some (winRate [wTrade]) ∧
      0 ≤ winRate [wTrade] ∧ winRate [wTrade] ≤ 100 ∧
      (compute_all_metrics defaultContractSize [wTrade]).lookup "sl_usage_rate" =
        some (slUsageRate [wTrade]) ∧
      0 ≤ slUsageRate [wTrade] ∧ slUsageRate [wTrade] ≤ 100 ∧
      (compute_all_metrics defaultContractSize [wTrade]).lookup "max_drawdown_pct" =
        some (maxDrawdownPct [wTrade]) ∧
      0 ≤ maxDrawdownPct [wTrade]) :=
  ⟨by simp, compute_all_metrics_bounds defaultContractSize [wTrade] (by simp)⟩

/-- C3: `compute_all_metrics` is a total function: for every ledger,
including the empty one, the returned mapping carries exactly the eight
required metric keys, and on the empty ledger every key is set to its
defined default — never a partial mapping, never an exception. -/
theorem compute_all_metrics_total (cs : String → ℚ) (l : List Trade) :
    (compute_all_metrics cs l).map Prod.fst = requiredKeys ∧
    compute_all_metrics cs [] = emptyMetrics := by
  constructor
  · cases l with
    | nil => rfl
    | cons t ts => rfl
  · rfl

/-- C7: on a non-empty ledger where every trade has positive
`profit_loss`, `compute_all_metrics` reports the finite capped sentinel
as `profit_factor` and defaults `risk_reward_ratio` to 0 — no division
error. -/
theorem compute_all_metrics_all_winning (cs : String → ℚ) (l : List Trade)
    (hne : l ≠ []) (hpos : ∀ t ∈ l, 0 < t.profit_loss) :
    (compute_all_metrics cs l).lookup "profit_factor" = some profitFactorCap ∧
    (compute_all_metrics cs l).lookup "risk_reward_ratio" = some 0 := by
  have hgl : grossLoss l = 0 := by
    unfold grossLoss
    apply List.sum_eq_zero
    intro x hx
    rw [List.mem_map] at hx
    obtain ⟨t, ht, rfl⟩ := hx
    rw [if_neg (not_lt.2 (le_of_lt (hpos t ht)))]
  have hlc : lossCount l = 0 := by
    unfold lossCount
    rw [List.countP_eq_zero]
    intro t ht
    simpa using le_of_lt (hpos t ht)
  have hpf : profitFactor l = profitFactorCap := by
    unfold profitFactor
    rw [if_pos hgl]
  have hrr : riskReward l = 0 := by
    unfold riskReward
    rw [if_pos (Or.inr hlc)]
  obtain ⟨t, ts, rfl⟩ := List.exists_cons_of_ne_nil hne
  rw [compute_all_metrics_cons, ← hpf, ← hrr]
  exact ⟨rfl, rfl⟩

/-- Witness for C7 at the all-winning one-trade ledger `[wTrade]`. -/
theorem compute_all_metrics_all_winning_witness :
    ([wTrade] ≠ ([] : List Trade)) ∧ (∀ t ∈ [wTrade], 0 < t.profit_loss) ∧
    ((compute_all_metrics defaultContractSize [wTrade]).lookup "profit_factor" =
        some profitFactorCap ∧
      (compute_all_metrics defaultContractSize [wTrade]).lookup "risk_reward_ratio" =
        some 0) :=
  ⟨by simp, by intro t ht; simp at ht; subst ht; norm_num [wTrade],
    compute_all_metrics_all_winning defaultContractSize [wTrade] (by simp)
      (by intro t ht; simp at ht; subst ht; norm_num [wTrade])⟩

/-! ### Claim theorems: integration scenario -/

/-- The exact metric values of the integration-test ledger. -/
def testMetricsVal : List (String × ℚ) :=
  [("total_trades", 20), ("win_rate", 50), ("profit_factor", 19/10),
   ("net_profit", 180), ("avg_position_size_pct", 300001/2000),
   ("max_drawdown_pct", 50/167), ("risk_reward_ratio", 19/10),
   ("sl_usage_rate", 75)]

theorem compute_test_metrics :
    compute_all_metrics defaultContractSize testLedger = testMetricsVal := by
  norm_num [compute_all_metrics, winRate, wins, profitFactor, grossProfit,
    grossLoss, netProfit, avgPositionSizePct, positionSizePct, maxDrawdownPct,
    riskReward, lossCount, slUsageRate, testLedger, testTrade, testPLs,
    defaultContractSize, testMetricsVal, List.range_succ, List.countP_cons,
    clampRate, qmin, qmax, ddFold, List.scanl]
  simp
  norm_num

theorem detect_test_risks :
    detect_all_risks testMetricsVal testLedger =
      ⟨["over_leverage", "missing_stop_loss"],
       [("over_leverage",
         ⟨100, "Average position size exceeds the configured maximum"⟩),
        ("missing_stop_loss",
         ⟨25, "Stop-loss not set on a significant share of trades"⟩)]⟩ := by
  have h1 : testMetricsVal.lookup "avg_position_size_pct" = some (300001/2000) := rfl
  have h2 : testMetricsVal.lookup "sl_usage_rate" = some 75 := rfl
  have h3 : testMetricsVal.lookup "risk_reward_ratio" = some (19/10) := rfl
  have h4 : testMetricsVal.lookup "max_drawdown_pct" = some (50/167) := rfl
  norm_num [detect_all_risks, ruleCandidates, sevOf, h1, h2, h3, h4,
    overLeverageSeverity, missingStopLossSeverity, poorRiskRewardSeverity,
    excessiveDrawdownSeverity, maxPositionSizePct, minRiskReward,
    maxDrawdownAlert, minSlUsage, qmin, qmax, List.filter]

/-- C6: on the 20-trade integration-test ledger (profit_loss sequence
[20,−30,40,−25,35,−20,45,−15,50,−10] twice, 5 of 20 trades with
stop_loss = 0), the pipeline yields `sl_usage_rate` = 75, `win_rate` = 50
and a detected missing-stop-loss finding whose severity (25) lies
strictly between 0 and 100. -/
theorem integration_ledger_values :
    (compute_all_metrics defaultContractSize testLedger).lookup "sl_usage_rate" =
      some 75 ∧
    (compute_all_metrics defaultContractSize testLedger).lookup "win_rate" =
      some 50 ∧
    "missing_stop_loss" ∈
      (detect_all_risks (compute_all_metrics defaultContractSize testLedger)
        testLedger).detected_risks ∧
    (detect_all_risks (compute_all_metrics defaultContractSize testLedger)
        testLedger).risk_details.lookup "missing_stop_loss" =
      some ⟨25, "Stop-loss not set on a significant share of trades"⟩ ∧
    (0 : ℚ) < 25 ∧ (25 : ℚ) < 100 := by
  rw [compute_test_metrics, detect_test_risks]
  exact ⟨rfl, rfl, by simp, rfl, by norm_num, by norm_num⟩

/-! ### Claim theorems: sample-data generator -/

theorem one_le_basePriceLo (s : String) : 1 ≤ basePriceLo s := by
  unfold basePriceLo
  split
  · split <;> norm_num
  · split
    · norm_num
    · split <;> norm_num

theorem le_roundTo_of_le (n : ℕ) (m : ℤ) (x : ℚ) (h : (m : ℚ) ≤ x * 10 ^ n) :
    (m : ℚ) / 10 ^ n ≤ roundTo n x := by
  unfold roundTo
  have h2 : m ≤ round (x * 10 ^ n) := by
    calc m = round ((m : ℚ)) := (round_intCast m).symm
    _ ≤ round (x * 10 ^ n) := by
        rw [round_eq, round_eq]
        exact Int.floor_le_floor (by linarith)
  have hpow : (0 : ℚ) < 10 ^ n := by positivity
  exact (div_le_div_iff_of_pos_right hpow).2 (by exact_mod_cast h2)

theorem mkTrade_inv (i : ℕ) (bal : ℚ) (now : ℤ) (r : RandTrade)
    (hv : r.Valid) :
    (mkTrade i bal now r).entry_time < (mkTrade i bal now r).exit_time ∧
    0 < (mkTrade i bal now r).lot_size ∧
    0 < (mkTrade i bal now r).entry_price ∧
    (mkTrade i bal now r).stop_loss ≠ 0 ∧
    (mkTrade i bal now r).take_profit ≠ 0 := by
  obtain ⟨hLo, hHi, hE1, hE2, hW1, hW2, hP1, hP2, hD, hH, hDur1, hDur2,
    hLot1, hLot2⟩ := hv
  have hb : 1 ≤ r.baseDraw := le_trans (one_le_basePriceLo _) hLo
  dsimp only [mkTrade]
  refine ⟨?_, ?_, ?_, ?_, ?_⟩
  · omega
  · linarith
  · exact lt_of_lt_of_le (by norm_num)
      (le_roundTo_of_le 4 10000 r.baseDraw (by push_cast; nlinarith))
  · have hx : (49 : ℚ) / 50 ≤
        r.baseDraw * (if 0 < rawPL r then (49:ℚ)/50 else 51/50) := by
      split <;> nlinarith
    have h1 := le_roundTo_of_le 4 9800
      (r.baseDraw * (if 0 < rawPL r then (49:ℚ)/50 else 51/50))
      (by push_cast; nlinarith)
    exact (lt_of_lt_of_le (by norm_num) h1).ne'
  · have hx : (49 : ℚ) / 50 ≤
        r.baseDraw * (if 0 < rawPL r then (51:ℚ)/50 else 49/50) := by
      split <;> nlinarith
    have h1 := le_roundTo_of_le 4 9800
      (r.baseDraw * (if 0 < rawPL r then (51:ℚ)/50 else 49/50))
      (by push_cast; nlinarith)
    exact (lt_of_lt_of_le (by norm_num) h1).ne'

theorem csdLoop_length (now : ℤ) (rand : ℕ → RandTrade) :
    ∀ (n i : ℕ) (bal : ℚ), (csdLoop now rand n i bal).length = n := by
  intro n
  induction n with
  | zero => intro i bal; rfl
  | succ n ih => intro i bal; simp [csdLoop, ih]

theorem csdLoop_ids (now : ℤ) (rand : ℕ → RandTrade) :
    ∀ (n i : ℕ) (bal : ℚ),
      (csdLoop now rand n i bal).map (fun t => t.trade_id) = List.range' i n := by
  intro n
  induction n with
  | zero => intro i bal; rfl
  | succ n ih =>
      intro i bal
      show (mkTrade i bal now (rand i)).trade_id ::
        (csdLoop now rand n (i + 1) (bal + rawPL (rand i))).map (fun t => t.trade_id) =
        i :: List.range' (i + 1) n
      rw [ih]
      rfl

theorem csdLoop_inv (now : ℤ) (rand : ℕ → RandTrade)
    (hr : ∀ i, (rand i).Valid) :
    ∀ (n i : ℕ) (bal : ℚ) (t : Trade), t ∈ csdLoop now rand n i bal →
      t.entry_time < t.exit_time ∧ 0 < t.lot_size ∧ 0 < t.entry_price ∧
      t.stop_loss ≠ 0 ∧ t.take_profit ≠ 0 := by
  intro n
  induction n with
  | zero => intro i bal t ht; simp [csdLoop] at ht
  | succ n ih =>
      intro i bal t ht
      rcases List.mem_cons.1 ht with h | h
      · subst h; exact mkTrade_inv _ _ _ _ (hr i)
      · exact ih _ _ _ h

/-- C9: every ledger produced by `create_sample_data` with at least one
trade and positive starting balance has exactly `num_trades` rows whose
`trade_id`s are exactly 1..num_trades, whose `exit_time` is strictly
after `entry_time`, and whose `lot_size` and `entry_price` are positive
and `stop_loss`/`take_profit` nonzero. -/
theorem create_sample_data_schema (n : ℕ) (b : ℚ) (now : ℤ)
    (rand : ℕ → RandTrade) (hn : 1 ≤ n) (hb : 0 < b)
    (hr : ∀ i, (rand i).Valid) :
    (create_sample_data n b now rand).length = n ∧
    (create_sample_data n b now rand).map (fun t => t.trade_id) =
      List.range' 1 n ∧
    ∀ t ∈ create_sample_data n b now rand,
      t.entry_time < t.exit_time ∧ 0 < t.lot_size ∧ 0 < t.entry_price ∧
      t.stop_loss ≠ 0 ∧ t.take_profit ≠ 0 :=
  ⟨csdLoop_length now rand n 1 b, csdLoop_ids now rand n 1 b,
   fun t ht => csdLoop_inv now rand hr n 1 b t ht⟩

/-- A concrete draw record inside every numpy range, for witnesses. -/
def wRand : RandTrade :=
  ⟨⟨0, by norm_num⟩, 11/10, 1, 1/2, 20, 0, 0, 1, 1, 1/10⟩

theorem wRand_valid : wRand.Valid := by
  have hsym : wRand.symbol = "EURUSD" := rfl
  have hc : containsUSD "EURUSD" = true := rfl
  unfold RandTrade.Valid
  rw [hsym]
  norm_num [wRand, basePriceLo, basePriceHi, hc]

/-- Witness for C9 at one generated trade with a valid draw record. -/
theorem create_sample_data_schema_witness :
    (1 ≤ 1 ∧ (0 : ℚ) < 10000 ∧ ((fun _ : ℕ => wRand) 0).Valid) ∧
    ((create_sample_data 1 10000 0 (fun _ => wRand)).length = 1 ∧
     (create_sample_data 1 10000 0 (fun _ => wRand)).map (fun t => t.trade_id) =
       List.range' 1 1 ∧
     ∀ t ∈ create_sample_data 1 10000 0 (fun _ => wRand),
       t.entry_time < t.exit_time ∧ 0 < t.lot_size ∧ 0 < t.entry_price ∧
       t.stop_loss ≠ 0 ∧ t.take_profit ≠ 0) :=
  ⟨⟨le_rfl, by norm_num, wRand_valid⟩,
   create_sample_data_schema 1 10000 0 (fun _ => wRand) le_rfl (by norm_num)
     (fun _ => wRand_valid)⟩

theorem csdLoop_balances (now : ℤ) (rand : ℕ → RandTrade) :
    ∀ (n k i : ℕ) (bal : ℚ), k < n →
      ((csdLoop now rand n i bal).map
        (fun t => t.account_balance_before)).getD k 0 =
        roundTo 2 (bal + ((List.range k).map (fun j => rawPL (rand (i + j)))).sum) := by
  intro n
  induction n with
  | zero => intro k i bal hk; exact absurd hk (Nat.not_lt_zero k)
  | succ n ih =>
      intro k i bal hk
      rw [show csdLoop now rand (n + 1) i bal =
        mkTrade i bal now (rand i) ::
          csdLoop now rand n (i + 1) (bal + rawPL (rand i)) from rfl]
      cases k with
      | zero => simp [mkTrade, List.range_zero]
      | succ k =>
          have hk' : k < n := Nat.lt_of_succ_lt_succ hk
          rw [List.map_cons, List.getD_cons_succ,
            ih k (i + 1) (bal + rawPL (rand i)) hk']
          congr 1
          rw [List.range_succ_eq_map, List.map_cons, List.sum_cons,
            List.map_map]
          have hmaps : (List.range k).map (fun j => rawPL (rand (i + 1 + j))) =
              (List.range k).map ((fun j => rawPL (rand (i + j))) ∘ Nat.succ) := by
            apply List.map_congr_left
            intro j hj
            show rawPL (rand (i + 1 + j)) = rawPL (rand (i + (j + 1)))
            congr 2
            omega
          rw [hmaps]
          simp only [Nat.add_zero]
          ring

/-- C10: in every generated ledger, the recorded
`account_balance_before` of the k-th trade (0-based) equals the initial
`account_balance` plus the sum of the raw `profit_loss` draws of all
earlier trades, rounded to two decimal places at recording time. -/
theorem create_sample_data_balances (n : ℕ) (b : ℚ) (now : ℤ)
    (rand : ℕ → RandTrade) (k : ℕ) (hk : k < n) :
    ((create_sample_data n b now rand).map
      (fun t => t.account_balance_before)).getD k 0 =
      roundTo 2 (b + ((List.range k).map (fun j => rawPL (rand (1 + j)))).sum) :=
  csdLoop_balances now rand n k 1 b hk

/-- Witness for C10: with two constant draws of +20, the second trade's
recorded balance is 10020. -/
theorem create_sample_data_balances_witness :
    1 < 2 ∧
    ((create_sample_data 2 10000 0 (fun _ => wRand)).map
      (fun t => t.account_balance_before)).getD 1 0 =
      roundTo 2 (10000 + ((List.range 1).map
        (fun j => rawPL ((fun _ => wRand) (1 + j)))).sum) :=
  ⟨by norm_num,
   create_sample_data_balances 2 10000 0 (fun _ => wRand) 1 (by norm_num)⟩

end TradeGuard
